import Mathlib

/-!
Verification of the salary-advance / loan core of this repository.

The embedding below follows `src/Backend/main.py` (the orchestrator with
amortization support, which the design notes designate as canonical; the
near-duplicate `src/main.py` is superseded).  Python floats are modelled by
exact rationals (ℚ); `round(x, 2)` and pandas `DataFrame.round(2)` are
modelled by round-half-to-even at two decimals; a raised exception is
modelled by `Except.error` carrying the exception's message string.
-/

namespace Fintech

/-- Round a rational to the nearest integer, ties to even: the rounding mode
of Python's built-in `round` and of pandas/numpy `round`. -/
def roundHalfEven (q : ℚ) : ℤ :=
  let f : ℤ := ⌊q⌋
  let frac : ℚ := q - f
  if frac < 1 / 2 then f
  else if 1 / 2 < frac then f + 1
  else if f % 2 = 0 then f else f + 1

/-- `round(x, 2)`: round to two decimal places, ties to even. -/
def round2 (q : ℚ) : ℚ := (roundHalfEven (q * 100) : ℚ) / 100

/-- Input model `AdvanceRequest` (src/Backend/main.py lines 12-19).
`loan_amount`, `interest_rate`, `loan_term` are `Optional` with default
`None`; `include_amortization` is `Optional[bool]` with default `False`.
`loan_term` is a Python `int`; every claim concerns terms ≥ 0, so the
embedding uses ℕ (for term 0, `range(1, 0 + 1)` is empty and
`x ** 0 = 1`, exactly as in Python). -/
structure AdvanceRequest where
  gross_salary : ℚ
  pay_frequency : String
  advance_amount : ℚ
  loan_amount : Option ℚ
  interest_rate : Option ℚ
  loan_term : Option ℕ
  include_amortization : Bool
deriving DecidableEq, Repr

/-- One row of the amortization schedule: the dict produced for each month by
`generate_amortization_schedule` (columns Month, Payment, Principal,
Interest, Balance of the DataFrame). -/
structure AmortizationRow where
  month : ℕ
  payment : ℚ
  principal_paid : ℚ
  interest : ℚ
  balance : ℚ
deriving DecidableEq, Repr

/-- The dict stored in `loans_db` (src/Backend/main.py lines 137-149).
`timestamp` is the ISO string produced by `datetime.now()`, supplied here as
an explicit parameter of the orchestrator. -/
structure LoanRecord where
  loan_id : String
  advance_amount : ℚ
  fee : ℚ
  timestamp : String
  gross_salary : ℚ
  pay_frequency : String
  loan_amount : Option ℚ
  interest_rate : Option ℚ
  loan_term : Option ℕ
  total_repayable : Option ℚ
  amortization_schedule : Option (List AmortizationRow)
deriving DecidableEq, Repr

/-- Response model `AdvanceResponse` (src/Backend/main.py lines 22-30). -/
structure AdvanceResponse where
  eligible : Bool
  max_advance : ℚ
  approved_amount : ℚ
  fee : ℚ
  total_repayable : Option ℚ
  amortization_schedule : Option (List AmortizationRow)
  message : String
  loan_id : Option String
deriving DecidableEq, Repr

/-- `convert_to_monthly_salary` (src/Backend/main.py lines 36-46).  The
`else` branch raises `ValueError("Invalid pay frequency")`; note that the
message is that fixed string, independent of the offending frequency. -/
def convert_to_monthly_salary (gross_salary : ℚ) (pay_frequency : String) :
    Except String ℚ :=
  if pay_frequency = "Weekly" then .ok (gross_salary * 52 / 12)
  else if pay_frequency = "Bi-Weekly" then .ok (gross_salary * 26 / 12)
  else if pay_frequency = "Monthly" then .ok gross_salary
  else if pay_frequency = "Annually" then .ok (gross_salary / 12)
  else .error "Invalid pay frequency"

/-- The period count of `calculate_compound_interest`: `n * t` with `n = 12`
and `t = term_months / 12` (Python true division), i.e. `12 * (m / 12)` as an
exact rational. -/
def compound_periods (term_months : ℕ) : ℚ :=
  12 * ((term_months : ℚ) / 12)

/-- `calculate_compound_interest` (src/Backend/main.py lines 49-63): no input
validation of any kind; returns `round(principal * (1 + rate/100/12) ** periods, 2)`.
The source's exponent is `compound_periods term_months`, a rational that is
exactly equal to `term_months` (see `compound_periods_eq`); since ℚ has no
rational-exponent power, the embedding raises to the integer `term_months`
directly. -/
def calculate_compound_interest (principal rate : ℚ) (term_months : ℕ) : ℚ :=
  let rate_per_period : ℚ := rate / 100 / 12
  round2 (principal * (1 + rate_per_period) ^ term_months)

/-- `generate_amortization_schedule` (src/Backend/main.py lines 66-87).

Faithful translation of the pandas pipeline:
* `monthly_payment` is the annuity formula, rounded to 2 decimals; when the
  denominator `(1+monthly_rate)**term_months - 1` is `0.0` (e.g. rate `0`)
  Python raises `ZeroDivisionError`, modelled as `none`.
* The `Balance` column is initialized as the scalar `principal` broadcast to
  every row, so `df["Interest"] = df["Balance"] * monthly_rate` is the SAME
  value `principal * monthly_rate` in every row, and
  `df["Principal"] = df["Payment"] - df["Interest"]` is likewise constant.
* `df["Balance"].shift(1, fill_value=principal)` shifts the still-constant
  column, yielding `principal` in every row, so the reassigned balance of
  row `m` is `principal - m * principal_paid` (cumsum of a constant),
  clipped below at 0, and finally `df.round(2)` rounds every money column. -/
def generate_amortization_schedule (principal rate : ℚ) (term_months : ℕ) :
    Option (List AmortizationRow) :=
  let monthly_rate : ℚ := rate / 100 / 12
  let growth : ℚ := (1 + monthly_rate) ^ term_months
  if growth - 1 = 0 then none
  else
    let monthly_payment : ℚ := round2 (principal * (monthly_rate * growth) / (growth - 1))
    let interest : ℚ := principal * monthly_rate
    let principal_paid : ℚ := monthly_payment - interest
    some ((List.range term_months).map (fun i =>
      let m : ℕ := i + 1
      let balance : ℚ := max 0 (principal - (m : ℚ) * principal_paid)
      { month := m
        payment := round2 monthly_payment
        principal_paid := round2 principal_paid
        interest := round2 interest
        balance := round2 balance }))

/-- Lines 124-133 of `calculate_advance`: the loan step.  The Python guard is
`if request.loan_amount and request.interest_rate and request.loan_term:` —
truthiness, so `None` AND the value `0` both skip the step.  When the step
runs and `include_amortization` is set, a `ZeroDivisionError` escaping
`generate_amortization_schedule` is caught by the generic handler and turned
into HTTP 500 "Internal server error". -/
def loanFigures (request : AdvanceRequest) :
    Except String (Option ℚ × Option (List AmortizationRow)) :=
  match request.loan_amount, request.interest_rate, request.loan_term with
  | some la, some ir, some lt =>
    if la = 0 ∨ ir = 0 ∨ lt = 0 then .ok (none, none)
    else
      let total := calculate_compound_interest la ir lt
      if request.include_amortization then
        match generate_amortization_schedule la ir lt with
        | some sched => .ok (some total, some sched)
        | none => .error "Internal server error"
      else .ok (some total, none)
  | _, _, _ => .ok (none, none)

/-- The record built at lines 137-149: the fresh uuid, the computed fee, the
timestamp, a snapshot of every request field, and the computed loan figures. -/
def mk_loan_record (request : AdvanceRequest) (fresh_id now : String) (fee : ℚ)
    (total_repayable : Option ℚ)
    (amortization_schedule : Option (List AmortizationRow)) : LoanRecord :=
  { loan_id := fresh_id
    advance_amount := request.advance_amount
    fee := fee
    timestamp := now
    gross_salary := request.gross_salary
    pay_frequency := request.pay_frequency
    loan_amount := request.loan_amount
    interest_rate := request.interest_rate
    loan_term := request.loan_term
    total_repayable := total_repayable
    amortization_schedule := amortization_schedule }

/-- Message of the ineligible branch (line 104), verbatim. -/
def ineligible_message : String :=
  "Ineligible: Monthly salary is below the minimum threshold of $1000."

/-- Message of the over-cap branch (line 117).  The source interpolates the
formatted amounts; the numeric content is carried by the other fields, so the
embedding keeps a fixed string. -/
def over_cap_message : String :=
  "Requested advance exceeds maximum allowed."

/-- Message of the approval branch (lines 153-155).  The source interpolates
the formatted amounts; the embedding keeps a fixed string. -/
def approved_message : String :=
  "Advance approved!"

/-- The `AdvanceResponse(...)` returned at lines 99-105 (ineligible). -/
def ineligible_response : AdvanceResponse :=
  { eligible := false
    max_advance := 0
    approved_amount := 0
    fee := 0
    total_repayable := none
    amortization_schedule := none
    message := ineligible_message
    loan_id := none }

/-- The `AdvanceResponse(...)` returned at lines 112-118 (requested advance
exceeds the cap). -/
def over_cap_response (max_advance : ℚ) : AdvanceResponse :=
  { eligible := true
    max_advance := max_advance
    approved_amount := 0
    fee := 0
    total_repayable := none
    amortization_schedule := none
    message := over_cap_message
    loan_id := none }

/-- The `AdvanceResponse(...)` returned at lines 157-166 (approval). -/
def approved_response (request : AdvanceRequest) (max_advance fee : ℚ)
    (total_repayable : Option ℚ)
    (amortization_schedule : Option (List AmortizationRow))
    (fresh_id : String) : AdvanceResponse :=
  { eligible := true
    max_advance := max_advance
    approved_amount := request.advance_amount
    fee := fee
    total_repayable := total_repayable
    amortization_schedule := amortization_schedule
    message := approved_message
    loan_id := some fresh_id }

/-- The `/calculate_advance` endpoint, `calculate_advance`
(src/Backend/main.py lines 91-171).  The in-memory store `loans_db` is
threaded explicitly; `uuid.uuid4()` and `datetime.now()` are the parameters
`fresh_id` and `now`.  A `ValueError` from the normalizer propagates as an
HTTP 400 carrying its message (modelled as `Except.error`).  Note that the
ineligible branch (lines 98-105) and the over-cap branch (lines 111-118)
`return` BEFORE step 6, so no `LoanRecord` is stored and `loan_id` stays
`None` on those branches. -/
def calculate_advance (request : AdvanceRequest) (fresh_id now : String)
    (db : List (String × LoanRecord)) :
    Except String (AdvanceResponse × List (String × LoanRecord)) :=
  match convert_to_monthly_salary request.gross_salary request.pay_frequency with
  | .error e => .error e
  | .ok monthly_salary =>
    if monthly_salary < 1000 then
      .ok (ineligible_response, db)
    else
      let max_advance : ℚ := monthly_salary * 0.5
      if max_advance < request.advance_amount then
        .ok (over_cap_response max_advance, db)
      else
        let fee : ℚ := max 10.0 (min 50.0 (request.advance_amount * 0.05))
        match loanFigures request with
        | .error e => .error e
        | .ok (total_repayable, amortization_schedule) =>
          let record := mk_loan_record request fresh_id now fee total_repayable
            amortization_schedule
          .ok (approved_response request max_advance fee total_repayable
                 amortization_schedule fresh_id, (fresh_id, record) :: db)

/-- The `/loan/{loan_id}` endpoint (src/Backend/main.py lines 174-178):
lookup in `loans_db`, 404 when absent. -/
def get_loan (loan_id : String) (db : List (String × LoanRecord)) :
    Except String LoanRecord :=
  match (db.find? (fun p => p.1 = loan_id)) with
  | some p => .ok p.2
  | none => .error "Loan not found"

/-- Direct-formula total repayable, written from the spec's words for the
refinement claim C8: `total = principal * (1+r)^termMonths`, rounded to 2
decimal places, with `r = annualRatePercent/100/12`. -/
def specTotalRepayable (principal rate : ℚ) (term_months : ℕ) : ℚ :=
  round2 (principal * (1 + rate / 100 / 12) ^ term_months)

end Fintech

namespace Fintech

/-! ### Evaluation lemmas for the rounding function -/

/-- `roundHalfEven` at a value strictly below the half-way point rounds down. -/
theorem roundHalfEven_of_lt (q : ℚ) (f : ℤ) (h1 : (f : ℚ) ≤ q) (h2 : q < (f : ℚ) + 1/2) :
    roundHalfEven q = f := by
  have hf : ⌊q⌋ = f := Int.floor_eq_iff.mpr ⟨h1, by linarith⟩
  simp only [roundHalfEven, hf]
  rw [if_pos]
  linarith

/-- `roundHalfEven` at a value strictly above the half-way point rounds up. -/
theorem roundHalfEven_of_gt (q : ℚ) (f : ℤ) (h1 : (f : ℚ) + 1/2 < q) (h2 : q < (f : ℚ) + 1) :
    roundHalfEven q = f + 1 := by
  have hf : ⌊q⌋ = f := Int.floor_eq_iff.mpr ⟨by linarith, h2⟩
  simp only [roundHalfEven, hf]
  rw [if_neg, if_pos]
  · linarith
  · intro h
    linarith

/-- Two-decimal rounding, downward case. -/
theorem round2_of_lt (q : ℚ) (f : ℤ) (h1 : (f : ℚ) ≤ q * 100) (h2 : q * 100 < (f : ℚ) + 1/2) :
    round2 q = (f : ℚ) / 100 := by
  rw [round2, roundHalfEven_of_lt (q * 100) f h1 h2]

/-- Two-decimal rounding, upward case. -/
theorem round2_of_gt (q : ℚ) (f : ℤ) (h1 : (f : ℚ) + 1/2 < q * 100) (h2 : q * 100 < (f : ℚ) + 1) :
    round2 q = ((f : ℚ) + 1) / 100 := by
  rw [round2, roundHalfEven_of_gt (q * 100) f h1 h2]
  push_cast
  ring

/-- A rational that is already an integer multiple of 1/100 is a fixed point
of `round2`. -/
theorem round2_of_exact (q : ℚ) (f : ℤ) (h : (f : ℚ) = q * 100) : round2 q = q := by
  rw [round2, roundHalfEven_of_lt (q * 100) f h.le (by rw [← h]; linarith), h]
  field_simp

/-- The period count of the source, `12 * (term_months / 12)` in exact
(true-division) arithmetic, equals `term_months`. -/
theorem compound_periods_eq (term_months : ℕ) :
    compound_periods term_months = (term_months : ℚ) := by
  rw [compound_periods, mul_comm]
  exact div_mul_cancel₀ _ (by norm_num)

/-! ### Normalizer lemmas -/

theorem convert_weekly (g : ℚ) : convert_to_monthly_salary g "Weekly" = .ok (g * 52 / 12) := by
  simp [convert_to_monthly_salary]

theorem convert_biweekly (g : ℚ) : convert_to_monthly_salary g "Bi-Weekly" = .ok (g * 26 / 12) := by
  simp [convert_to_monthly_salary]

theorem convert_monthly (g : ℚ) : convert_to_monthly_salary g "Monthly" = .ok g := by
  simp [convert_to_monthly_salary]

theorem convert_annually (g : ℚ) : convert_to_monthly_salary g "Annually" = .ok (g / 12) := by
  simp [convert_to_monthly_salary]

end Fintech

namespace Fintech

/-! ### Branch lemmas for the orchestrator -/

/-- A `ValueError` from the normalizer propagates (HTTP 400). -/
theorem calculate_advance_freq_error (request : AdvanceRequest) (fresh_id now : String)
    (db : List (String × LoanRecord)) (e : String)
    (hms : convert_to_monthly_salary request.gross_salary request.pay_frequency = .error e) :
    calculate_advance request fresh_id now db = .error e := by
  unfold calculate_advance
  rw [hms]

/-- Ineligible branch: salary below the threshold, store untouched. -/
theorem calculate_advance_ineligible (request : AdvanceRequest) (fresh_id now : String)
    (db : List (String × LoanRecord)) (ms : ℚ)
    (hms : convert_to_monthly_salary request.gross_salary request.pay_frequency = .ok ms)
    (hlt : ms < 1000) :
    calculate_advance request fresh_id now db = .ok (ineligible_response, db) := by
  unfold calculate_advance
  rw [hms]
  simp [hlt]

/-- Over-cap branch: advance above half the monthly salary, store untouched. -/
theorem calculate_advance_over_cap (request : AdvanceRequest) (fresh_id now : String)
    (db : List (String × LoanRecord)) (ms : ℚ)
    (hms : convert_to_monthly_salary request.gross_salary request.pay_frequency = .ok ms)
    (hge : ¬ ms < 1000) (hcap : ms * 0.5 < request.advance_amount) :
    calculate_advance request fresh_id now db = .ok (over_cap_response (ms * 0.5), db) := by
  unfold calculate_advance
  rw [hms]
  simp [hge, hcap]

/-- Approval branch: the record is inserted and the response carries the
fresh identifier. -/
theorem calculate_advance_approved (request : AdvanceRequest) (fresh_id now : String)
    (db : List (String × LoanRecord)) (ms : ℚ)
    (total : Option ℚ) (sched : Option (List AmortizationRow))
    (hms : convert_to_monthly_salary request.gross_salary request.pay_frequency = .ok ms)
    (hge : ¬ ms < 1000) (hcap : ¬ ms * 0.5 < request.advance_amount)
    (hlf : loanFigures request = .ok (total, sched)) :
    calculate_advance request fresh_id now db =
      .ok (approved_response request (ms * 0.5)
             (max 10.0 (min 50.0 (request.advance_amount * 0.05))) total sched fresh_id,
           (fresh_id, mk_loan_record request fresh_id now
             (max 10.0 (min 50.0 (request.advance_amount * 0.05))) total sched) :: db) := by
  unfold calculate_advance
  rw [hms]
  simp [hge, hcap, hlf]

/-- Inversion: every successful run of the orchestrator is one of the three
branches. -/
theorem calculate_advance_ok_cases (request : AdvanceRequest) (fresh_id now : String)
    (db : List (String × LoanRecord)) (resp : AdvanceResponse)
    (db' : List (String × LoanRecord))
    (h : calculate_advance request fresh_id now db = .ok (resp, db')) :
    ∃ ms, convert_to_monthly_salary request.gross_salary request.pay_frequency = .ok ms ∧
      ((ms < 1000 ∧ resp = ineligible_response ∧ db' = db) ∨
       (¬ ms < 1000 ∧ ms * 0.5 < request.advance_amount ∧
        resp = over_cap_response (ms * 0.5) ∧ db' = db) ∨
       (¬ ms < 1000 ∧ ¬ ms * 0.5 < request.advance_amount ∧
        ∃ total sched, loanFigures request = .ok (total, sched) ∧
          resp = approved_response request (ms * 0.5)
            (max 10.0 (min 50.0 (request.advance_amount * 0.05))) total sched fresh_id ∧
          db' = (fresh_id, mk_loan_record request fresh_id now
            (max 10.0 (min 50.0 (request.advance_amount * 0.05))) total sched) :: db)) := by
  cases hc : convert_to_monthly_salary request.gross_salary request.pay_frequency with
  | error e =>
    rw [calculate_advance_freq_error request fresh_id now db e hc] at h
    exact absurd h (by simp)
  | ok ms =>
    refine ⟨ms, rfl, ?_⟩
    by_cases h1 : ms < 1000
    · rw [calculate_advance_ineligible request fresh_id now db ms hc h1] at h
      simp only [Except.ok.injEq, Prod.mk.injEq] at h
      exact Or.inl ⟨h1, h.1.symm, h.2.symm⟩
    · by_cases h2 : ms * 0.5 < request.advance_amount
      · rw [calculate_advance_over_cap request fresh_id now db ms hc h1 h2] at h
        simp only [Except.ok.injEq, Prod.mk.injEq] at h
        exact Or.inr (Or.inl ⟨h1, h2, h.1.symm, h.2.symm⟩)
      · cases hlf : loanFigures request with
        | error e =>
          unfold calculate_advance at h
          rw [hc] at h
          simp [h1, h2, hlf] at h
        | ok figs =>
          obtain ⟨total, sched⟩ := figs
          rw [calculate_advance_approved request fresh_id now db ms total sched hc h1 h2 hlf] at h
          simp only [Except.ok.injEq, Prod.mk.injEq] at h
          exact Or.inr (Or.inr ⟨h1, h2, total, sched, rfl, h.1.symm, h.2.symm⟩)

end Fintech

namespace Fintech

/-- Evaluation of `round2 (max 0 x)` for nonnegative `x`, downward case. -/
theorem round2_max_of_lt (x c : ℚ) (f : ℤ) (hx : 0 ≤ x) (h1 : (f : ℚ) ≤ x * 100)
    (h2 : x * 100 < (f : ℚ) + 1/2) (hc : (f : ℚ) / 100 = c) :
    round2 (max 0 x) = c := by
  rw [max_eq_right hx, round2_of_lt x f h1 h2, hc]

/-- Evaluation of `round2 (max 0 x)` for nonnegative `x`, upward case. -/
theorem round2_max_of_gt (x c : ℚ) (f : ℤ) (hx : 0 ≤ x) (h1 : (f : ℚ) + 1/2 < x * 100)
    (h2 : x * 100 < (f : ℚ) + 1) (hc : ((f : ℚ) + 1) / 100 = c) :
    round2 (max 0 x) = c := by
  rw [max_eq_right hx, round2_of_gt x f h1 h2, hc]

/-- Full evaluation of the schedule the source produces for principal 10000,
rate 5 % and 12 months.  Every row carries the SAME payment, principal and
interest figures (the pandas `Balance` column is the constant `principal`
when `Interest` is computed), and the balance falls linearly to 227.16 — not
to 0. -/
theorem schedule_10000_5_12 :
    generate_amortization_schedule 10000 5 12 = some [
      { month := 1, payment := 856.07, principal_paid := 814.40, interest := 41.67, balance := 9185.60 },
      { month := 2, payment := 856.07, principal_paid := 814.40, interest := 41.67, balance := 8371.19 },
      { month := 3, payment := 856.07, principal_paid := 814.40, interest := 41.67, balance := 7556.79 },
      { month := 4, payment := 856.07, principal_paid := 814.40, interest := 41.67, balance := 6742.39 },
      { month := 5, payment := 856.07, principal_paid := 814.40, interest := 41.67, balance := 5927.98 },
      { month := 6, payment := 856.07, principal_paid := 814.40, interest := 41.67, balance := 5113.58 },
      { month := 7, payment := 856.07, principal_paid := 814.40, interest := 41.67, balance := 4299.18 },
      { month := 8, payment := 856.07, principal_paid := 814.40, interest := 41.67, balance := 3484.77 },
      { month := 9, payment := 856.07, principal_paid := 814.40, interest := 41.67, balance := 2670.37 },
      { month := 10, payment := 856.07, principal_paid := 814.40, interest := 41.67, balance := 1855.97 },
      { month := 11, payment := 856.07, principal_paid := 814.40, interest := 41.67, balance := 1041.56 },
      { month := 12, payment := 856.07, principal_paid := 814.40, interest := 41.67, balance := 227.16 }] := by
  have hg : ((1 : ℚ) + 5/100/12) ^ (12 : ℕ) - 1 ≠ 0 := by norm_num
  have hpay : round2 (10000 * ((5/100/12 : ℚ) * (1 + 5/100/12) ^ (12 : ℕ)) /
      ((1 + 5/100/12) ^ (12 : ℕ) - 1)) = 856.07 := by
    rw [round2_of_lt _ 85607 (by norm_num) (by norm_num)]
    norm_num
  have hY : (10000 : ℚ) * (5/100/12) = 125/3 := by norm_num
  have hint : round2 (125/3 : ℚ) = 41.67 := by
    rw [round2_of_gt _ 4166 (by norm_num) (by norm_num)]
    norm_num
  have hpd : (856.07 : ℚ) - 125/3 = 244321/300 := by norm_num
  have hprinc : round2 (244321/300 : ℚ) = 814.40 := by
    rw [round2_of_lt _ 81440 (by norm_num) (by norm_num)]
    norm_num
  have hpayfix : round2 (856.07 : ℚ) = 856.07 := round2_of_exact _ 85607 (by norm_num)
  have hrange : List.range 12 = [0, 1, 2, 3, 4, 5, 6, 7, 8, 9, 10, 11] := by rfl
  have hb0 : round2 (max 0 (10000 - ((0 + 1 : ℕ) : ℚ) * (244321 / 300))) = 9185.60 :=
    round2_max_of_gt _ _ 918559 (by push_cast; norm_num) (by push_cast; norm_num)
      (by push_cast; norm_num) (by norm_num)
  have hb1 : round2 (max 0 (10000 - ((1 + 1 : ℕ) : ℚ) * (244321 / 300))) = 8371.19 :=
    round2_max_of_lt _ _ 837119 (by push_cast; norm_num) (by push_cast; norm_num)
      (by push_cast; norm_num) (by norm_num)
  have hb2 : round2 (max 0 (10000 - ((2 + 1 : ℕ) : ℚ) * (244321 / 300))) = 7556.79 :=
    round2_max_of_lt _ _ 755679 (by push_cast; norm_num) (by push_cast; norm_num)
      (by push_cast; norm_num) (by norm_num)
  have hb3 : round2 (max 0 (10000 - ((3 + 1 : ℕ) : ℚ) * (244321 / 300))) = 6742.39 :=
    round2_max_of_gt _ _ 674238 (by push_cast; norm_num) (by push_cast; norm_num)
      (by push_cast; norm_num) (by norm_num)
  have hb4 : round2 (max 0 (10000 - ((4 + 1 : ℕ) : ℚ) * (244321 / 300))) = 5927.98 :=
    round2_max_of_lt _ _ 592798 (by push_cast; norm_num) (by push_cast; norm_num)
      (by push_cast; norm_num) (by norm_num)
  have hb5 : round2 (max 0 (10000 - ((5 + 1 : ℕ) : ℚ) * (244321 / 300))) = 5113.58 :=
    round2_max_of_lt _ _ 511358 (by push_cast; norm_num) (by push_cast; norm_num)
      (by push_cast; norm_num) (by norm_num)
  have hb6 : round2 (max 0 (10000 - ((6 + 1 : ℕ) : ℚ) * (244321 / 300))) = 4299.18 :=
    round2_max_of_gt _ _ 429917 (by push_cast; norm_num) (by push_cast; norm_num)
      (by push_cast; norm_num) (by norm_num)
  have hb7 : round2 (max 0 (10000 - ((7 + 1 : ℕ) : ℚ) * (244321 / 300))) = 3484.77 :=
    round2_max_of_lt _ _ 348477 (by push_cast; norm_num) (by push_cast; norm_num)
      (by push_cast; norm_num) (by norm_num)
  have hb8 : round2 (max 0 (10000 - ((8 + 1 : ℕ) : ℚ) * (244321 / 300))) = 2670.37 :=
    round2_max_of_lt _ _ 267037 (by push_cast; norm_num) (by push_cast; norm_num)
      (by push_cast; norm_num) (by norm_num)
  have hb9 : round2 (max 0 (10000 - ((9 + 1 : ℕ) : ℚ) * (244321 / 300))) = 1855.97 :=
    round2_max_of_gt _ _ 185596 (by push_cast; norm_num) (by push_cast; norm_num)
      (by push_cast; norm_num) (by norm_num)
  have hb10 : round2 (max 0 (10000 - ((10 + 1 : ℕ) : ℚ) * (244321 / 300))) = 1041.56 :=
    round2_max_of_lt _ _ 104156 (by push_cast; norm_num) (by push_cast; norm_num)
      (by push_cast; norm_num) (by norm_num)
  have hb11 : round2 (max 0 (10000 - ((11 + 1 : ℕ) : ℚ) * (244321 / 300))) = 227.16 :=
    round2_max_of_lt _ _ 22716 (by push_cast; norm_num) (by push_cast; norm_num)
      (by push_cast; norm_num) (by norm_num)
  simp only [generate_amortization_schedule]
  rw [if_neg hg, hpay, hY, hpd, hint, hprinc, hpayfix, hrange]
  simp only [List.map]
  rw [hb0, hb1, hb2, hb3, hb4, hb5, hb6, hb7, hb8, hb9, hb10, hb11]

end Fintech

namespace Fintech

/-! ### Concrete sample requests and their evaluated outcomes -/

/-- An ineligible request: gross 500 Monthly, so monthly salary 500 < 1000. -/
def ineligibleRequest : AdvanceRequest :=
  { gross_salary := 500
    pay_frequency := "Monthly"
    advance_amount := 100
    loan_amount := none
    interest_rate := none
    loan_term := none
    include_amortization := false }

/-- An approved request with requested advance 0 (gross 4000 Monthly). -/
def zeroAdvanceRequest : AdvanceRequest :=
  { gross_salary := 4000
    pay_frequency := "Monthly"
    advance_amount := 0
    loan_amount := none
    interest_rate := none
    loan_term := none
    include_amortization := false }

/-- A request whose loan triple is fully present but with interest rate 0. -/
def zeroRateLoanRequest : AdvanceRequest :=
  { gross_salary := 4000
    pay_frequency := "Monthly"
    advance_amount := 100
    loan_amount := some 10000
    interest_rate := some 0
    loan_term := some 12
    include_amortization := false }

/-- A plain approved request: gross 4000 Monthly, advance 1500, no loan. -/
def sampleApprovedRequest : AdvanceRequest :=
  { gross_salary := 4000
    pay_frequency := "Monthly"
    advance_amount := 1500
    loan_amount := none
    interest_rate := none
    loan_term := none
    include_amortization := false }

/-- An approved request with the full loan triple 10000 / 5 % / 12 months. -/
def sampleLoanRequest : AdvanceRequest :=
  { gross_salary := 4000
    pay_frequency := "Monthly"
    advance_amount := 1500
    loan_amount := some 10000
    interest_rate := some 5
    loan_term := some 12
    include_amortization := false }

/-- `calculate_compound_interest` at the spec's scenario input. -/
theorem compound_eval_10000_5_12 : calculate_compound_interest 10000 5 12 = 10511.62 := by
  simp only [calculate_compound_interest]
  rw [round2_of_gt _ 1051161 (by norm_num) (by norm_num)]
  norm_num

/-- The ineligible sample run: outcome returned, store untouched. -/
theorem run_ineligible :
    calculate_advance ineligibleRequest "id-1" "t0" [] = .ok (ineligible_response, []) :=
  calculate_advance_ineligible _ _ _ _ 500 (convert_monthly 500) (by norm_num)

/-- The approved sample run: fee 50, record inserted. -/
theorem run_approved :
    calculate_advance sampleApprovedRequest "id-1" "t0" [] =
      .ok (approved_response sampleApprovedRequest 2000 50 none none "id-1",
        [("id-1", mk_loan_record sampleApprovedRequest "id-1" "t0" 50 none none)]) := by
  have h := calculate_advance_approved sampleApprovedRequest "id-1" "t0" [] 4000 none none
    (convert_monthly 4000) (by norm_num) (by norm_num [sampleApprovedRequest])
    (by simp [loanFigures, sampleApprovedRequest])
  rw [h]
  norm_num [sampleApprovedRequest, min_def, max_def]

/-- The zero-advance sample run: approved at amount 0 with fee 10. -/
theorem run_zero_advance :
    calculate_advance zeroAdvanceRequest "id-1" "t0" [] =
      .ok (approved_response zeroAdvanceRequest 2000 10 none none "id-1",
        [("id-1", mk_loan_record zeroAdvanceRequest "id-1" "t0" 10 none none)]) := by
  have h := calculate_advance_approved zeroAdvanceRequest "id-1" "t0" [] 4000 none none
    (convert_monthly 4000) (by norm_num) (by norm_num [zeroAdvanceRequest])
    (by simp [loanFigures, zeroAdvanceRequest])
  rw [h]
  norm_num [zeroAdvanceRequest, min_def, max_def]

/-- The zero-rate loan sample run: the falsy interest rate skips the loan
step entirely, so no total repayable figure is produced. -/
theorem run_zero_rate :
    calculate_advance zeroRateLoanRequest "id-1" "t0" [] =
      .ok (approved_response zeroRateLoanRequest 2000 10 none none "id-1",
        [("id-1", mk_loan_record zeroRateLoanRequest "id-1" "t0" 10 none none)]) := by
  have h := calculate_advance_approved zeroRateLoanRequest "id-1" "t0" [] 4000 none none
    (convert_monthly 4000) (by norm_num) (by norm_num [zeroRateLoanRequest])
    (by simp [loanFigures, zeroRateLoanRequest])
  rw [h]
  norm_num [zeroRateLoanRequest, min_def, max_def]

/-- The loan sample run: the truthy triple makes the outcome carry the
compound-interest total. -/
theorem run_loan :
    calculate_advance sampleLoanRequest "id-2" "t0" [] =
      .ok (approved_response sampleLoanRequest 2000 50
             (some (calculate_compound_interest 10000 5 12)) none "id-2",
        [("id-2", mk_loan_record sampleLoanRequest "id-2" "t0" 50
             (some (calculate_compound_interest 10000 5 12)) none)]) := by
  have h := calculate_advance_approved sampleLoanRequest "id-2" "t0" [] 4000
    (some (calculate_compound_interest 10000 5 12)) none
    (convert_monthly 4000) (by norm_num) (by norm_num [sampleLoanRequest])
    (by simp [loanFigures, sampleLoanRequest])
  rw [h]
  norm_num [sampleLoanRequest, min_def, max_def]

end Fintech

namespace Fintech

/-- When the loan triple is present and truthy, every successful outcome of the
loan step carries the compound-interest total in its first component. -/
theorem loanFigures_truthy_total (request : AdvanceRequest) (la ir : ℚ) (lt : ℕ)
    (hla : request.loan_amount = some la) (hir : request.interest_rate = some ir)
    (hlt : request.loan_term = some lt)
    (hla0 : la ≠ 0) (hir0 : ir ≠ 0) (hlt0 : lt ≠ 0)
    (total : Option ℚ) (sched : Option (List AmortizationRow))
    (h : loanFigures request = .ok (total, sched)) :
    total = some (calculate_compound_interest la ir lt) := by
  unfold loanFigures at h
  rw [hla, hir, hlt] at h
  dsimp only at h
  rw [if_neg (by simp [hla0, hir0, hlt0])] at h
  by_cases hia : request.include_amortization = true
  · rw [if_pos hia] at h
    cases hs : generate_amortization_schedule la ir lt with
    | some s =>
      rw [hs] at h
      simp only [Except.ok.injEq, Prod.mk.injEq] at h
      exact h.1.symm
    | none =>
      rw [hs] at h
      exact absurd h (by simp)
  · rw [if_neg hia] at h
    simp only [Except.ok.injEq, Prod.mk.injEq] at h
    exact h.1.symm

/-- C8, confirmed: the source's period count `12 * (termMonths / 12)` (exact
true-division arithmetic) equals `termMonths` itself, so the source's
`calculate_compound_interest` coincides with the spec's direct formula
`round(principal * (1 + rate/100/12) ** termMonths, 2)` for every principal,
rate and term; at (10000, 5, 12) it yields 10511.62. -/
theorem c8_compound_refines_direct :
    (∀ t : ℕ, compound_periods t = (t : ℚ)) ∧
    (∀ (p r : ℚ) (t : ℕ), calculate_compound_interest p r t = specTotalRepayable p r t) ∧
    calculate_compound_interest 10000 5 12 = 10511.62 :=
  ⟨compound_periods_eq, fun _ _ _ => rfl, compound_eval_10000_5_12⟩

/-- C9 counterexample: the claim says the amortizer rejects non-positive
parameters with named failures, but the code has no validation at all — at
`termMonths = 0` the compound helper returns the principal (no `InvalidTerm`
anywhere), and at `principal = -100` the schedule helper succeeds with a full
row list (no `InvalidLoanParameters` anywhere). -/
theorem c9_counterexample :
    calculate_compound_interest 1000 5 0 = 1000 ∧
    (generate_amortization_schedule (-100) 5 12).isSome = true := by
  constructor
  · simp only [calculate_compound_interest, pow_zero, mul_one]
    exact round2_of_exact _ 100000 (by norm_num)
  · simp only [generate_amortization_schedule]
    rw [if_neg (by norm_num : ((1 : ℚ) + 5/100/12) ^ (12 : ℕ) - 1 ≠ 0)]
    simp

/-- C9 corrected: neither amortizer operation validates its inputs — the
schedule helper succeeds for EVERY principal (non-positive included) whenever
the rate is positive and the term is at least 1 (its only failure mode is the
unnamed division by zero when `(1+monthlyRate)^term = 1`), and the compound
helper is total, returning the rounded compound formula for every term
(`termMonths = 0` included).  No `InvalidTerm` or `InvalidLoanParameters`
failure exists in the code. -/
theorem c9_no_named_failures (r : ℚ) (t : ℕ) (hr : 0 < r) (ht : 1 ≤ t) :
    (∀ p : ℚ, (generate_amortization_schedule p r t).isSome = true) ∧
    (∀ (p : ℚ) (t' : ℕ), calculate_compound_interest p r t' =
      round2 (p * (1 + r / 100 / 12) ^ t')) := by
  constructor
  · intro p
    have h1 : (1 : ℚ) < 1 + r / 100 / 12 := by
      have : 0 < r / 100 / 12 := by positivity
      linarith
    have h2 : (1 : ℚ) < (1 + r / 100 / 12) ^ t := one_lt_pow₀ h1 (by omega)
    have hne : ((1 : ℚ) + r / 100 / 12) ^ t - 1 ≠ 0 := by
      intro hc
      have : ((1 : ℚ) + r / 100 / 12) ^ t = 1 := by linarith
      linarith
    simp only [generate_amortization_schedule]
    rw [if_neg hne]
    simp
  · intro p t'
    rfl

/-- C9 witness: rate 5, term 12 — the schedule succeeds even at the
non-positive principal -100. -/
theorem c9_witness :
    (0 : ℚ) < 5 ∧ (1 : ℕ) ≤ 12 ∧
    (generate_amortization_schedule (-100) 5 12).isSome = true :=
  ⟨by norm_num, by norm_num,
    (c9_no_named_failures 5 12 (by norm_num) (by norm_num)).1 (-100)⟩

/-- C10 counterexample: the claim says the failure carries the offending
frequency value, but the raised ValueError has the constant message
"Invalid pay frequency" — two different unknown frequencies produce the
identical error, so the failure carries no information about the offending
value. -/
theorem c10_counterexample :
    convert_to_monthly_salary 1000 "Daily" = .error "Invalid pay frequency" ∧
    convert_to_monthly_salary 1000 "Hourly" = convert_to_monthly_salary 1000 "Daily" := by
  constructor <;> simp [convert_to_monthly_salary]

/-- C10 corrected: `convert_to_monthly_salary` fails — with the fixed
ValueError message "Invalid pay frequency", NOT carrying the offending value —
exactly when the frequency is none of Weekly, Bi-Weekly, Monthly, Annually;
each known frequency is mapped purely to its monthly conversion. -/
theorem c10_frequency_characterization (g : ℚ) (f : String) :
    (convert_to_monthly_salary g f = .error "Invalid pay frequency" ↔
      f ≠ "Weekly" ∧ f ≠ "Bi-Weekly" ∧ f ≠ "Monthly" ∧ f ≠ "Annually") ∧
    convert_to_monthly_salary g "Weekly" = .ok (g * 52 / 12) ∧
    convert_to_monthly_salary g "Bi-Weekly" = .ok (g * 26 / 12) ∧
    convert_to_monthly_salary g "Monthly" = .ok g ∧
    convert_to_monthly_salary g "Annually" = .ok (g / 12) := by
  refine ⟨?_, convert_weekly g, convert_biweekly g, convert_monthly g, convert_annually g⟩
  unfold convert_to_monthly_salary
  split_ifs with h1 h2 h3 h4 <;> simp_all

end Fintech

namespace Fintech

/-- C1 counterexample: processing an ineligible request (gross 500 Monthly)
returns an outcome but inserts NO LoanRecord — the store is unchanged (still
empty) and the outcome's loanId is absent — contradicting the claim that
every processed request, including ineligible ones, inserts exactly one
record whose identifier the outcome carries. -/
theorem c1_counterexample :
    ((calculate_advance ineligibleRequest "id-1" "t0" []).map
      (fun x => (x.1.loan_id, x.2))) = .ok (none, []) := by
  rw [run_ineligible]
  rfl

/-- C1 corrected: a LoanRecord — with the fresh identifier, the timestamp and
the full request snapshot — is inserted exactly on the approval branch, and
there the outcome's loanId equals the record's identifier; on the ineligible
and over-cap branches nothing is inserted and loanId is absent. -/
theorem c1_record_inserted_iff_approved (request : AdvanceRequest)
    (fresh_id now : String) (db : List (String × LoanRecord))
    (resp : AdvanceResponse) (db' : List (String × LoanRecord))
    (h : calculate_advance request fresh_id now db = .ok (resp, db')) :
    (resp.loan_id = none ∧ db' = db ∧ resp.approved_amount = 0 ∧ resp.fee = 0) ∨
    (resp.loan_id = some fresh_id ∧ resp.approved_amount = request.advance_amount ∧
     ∃ rec : LoanRecord, db' = (fresh_id, rec) :: db ∧ rec.loan_id = fresh_id ∧
       rec.timestamp = now ∧ rec.gross_salary = request.gross_salary ∧
       rec.pay_frequency = request.pay_frequency ∧
       rec.advance_amount = request.advance_amount ∧
       rec.loan_amount = request.loan_amount ∧
       rec.interest_rate = request.interest_rate ∧
       rec.loan_term = request.loan_term ∧ rec.fee = resp.fee ∧
       rec.total_repayable = resp.total_repayable ∧
       rec.amortization_schedule = resp.amortization_schedule) := by
  obtain ⟨ms, _, hcase⟩ := calculate_advance_ok_cases request fresh_id now db resp db' h
  rcases hcase with ⟨_, hresp, hdb⟩ | ⟨_, _, hresp, hdb⟩ | ⟨_, _, total, sched, _, hresp, hdb⟩
  · subst hresp hdb
    exact Or.inl ⟨rfl, rfl, rfl, rfl⟩
  · subst hresp hdb
    exact Or.inl ⟨rfl, rfl, rfl, rfl⟩
  · subst hresp hdb
    exact Or.inr ⟨rfl, rfl,
      mk_loan_record request fresh_id now
        (max 10.0 (min 50.0 (request.advance_amount * 0.05))) total sched,
      rfl, rfl, rfl, rfl, rfl, rfl, rfl, rfl, rfl, rfl, rfl, rfl⟩

/-- C1 witness: the approved sample request (gross 4000 Monthly, advance
1500) hits the insertion branch of the corrected claim. -/
theorem c1_witness :
    ((approved_response sampleApprovedRequest 2000 50 none none "id-1").loan_id = none ∧
     ([("id-1", mk_loan_record sampleApprovedRequest "id-1" "t0" 50 none none)] :
        List (String × LoanRecord)) = [] ∧
     (approved_response sampleApprovedRequest 2000 50 none none "id-1").approved_amount = 0 ∧
     (approved_response sampleApprovedRequest 2000 50 none none "id-1").fee = 0) ∨
    ((approved_response sampleApprovedRequest 2000 50 none none "id-1").loan_id = some "id-1" ∧
     (approved_response sampleApprovedRequest 2000 50 none none "id-1").approved_amount =
       sampleApprovedRequest.advance_amount ∧
     ∃ rec : LoanRecord,
       ([("id-1", mk_loan_record sampleApprovedRequest "id-1" "t0" 50 none none)] :
          List (String × LoanRecord)) = [("id-1", rec)] ∧
       rec.loan_id = "id-1" ∧ rec.timestamp = "t0" ∧
       rec.gross_salary = sampleApprovedRequest.gross_salary ∧
       rec.pay_frequency = sampleApprovedRequest.pay_frequency ∧
       rec.advance_amount = sampleApprovedRequest.advance_amount ∧
       rec.loan_amount = sampleApprovedRequest.loan_amount ∧
       rec.interest_rate = sampleApprovedRequest.interest_rate ∧
       rec.loan_term = sampleApprovedRequest.loan_term ∧
       rec.fee = (approved_response sampleApprovedRequest 2000 50 none none "id-1").fee ∧
       rec.total_repayable =
         (approved_response sampleApprovedRequest 2000 50 none none "id-1").total_repayable ∧
       rec.amortization_schedule =
         (approved_response sampleApprovedRequest 2000 50 none none "id-1").amortization_schedule) :=
  c1_record_inserted_iff_approved sampleApprovedRequest "id-1" "t0" []
    (approved_response sampleApprovedRequest 2000 50 none none "id-1")
    [("id-1", mk_loan_record sampleApprovedRequest "id-1" "t0" 50 none none)]
    run_approved

/-- C2, code bug: the pandas pipeline computes `Interest` from the constant
initial `Balance` column, so EVERY row's interestPaid is the first month's
figure `round2(principal * monthlyRate)` — at (10000, 5 %, 12) every row
carries interest 41.67, while the claimed recurrence (interest of month 2 =
remaining balance 9185.60 after month 1 times the monthly rate) demands
38.27.  The code contradicts its own purpose of producing an amortization
schedule (its annuity payment formula presumes the recurrence). -/
theorem c2_interest_constant_bug :
    ((generate_amortization_schedule 10000 5 12).map (fun rows =>
      ((rows.get? 0).map (fun row => (row.balance, row.interest)),
       (rows.get? 1).map (fun row => row.interest)))) =
      some (some (9185.60, 41.67), some 41.67) ∧
    round2 ((9185.60 : ℚ) * (5 / 100 / 12)) = 38.27 ∧ (41.67 : ℚ) ≠ 38.27 := by
  refine ⟨?_, ?_, by norm_num⟩
  · rw [schedule_10000_5_12]
    rfl
  · rw [round2_of_lt _ 3827 (by norm_num) (by norm_num)]
    norm_num

/-- C3, code bug: because every row repays the constant
`payment - principal * monthlyRate`, the rounded principal portions at
(10000, 5 %, 12) sum to 9772.80 — short of the 10000 principal by 227.20,
far beyond rounding noise — and the final (12th) row's remaining balance is
227.16, not 0.  (No row is negative, but the sum and final-balance parts of
the claim fail.) -/
theorem c3_sum_principal_bug :
    ((generate_amortization_schedule 10000 5 12).map (fun rows =>
      (rows.length, (rows.map (fun row => row.principal_paid)).sum,
       (rows.get? 11).map (fun row => row.balance)))) =
      some (12, 9772.80, some 227.16) ∧
    (10000 : ℚ) - 9772.80 = 227.20 := by
  refine ⟨?_, by norm_num⟩
  rw [schedule_10000_5_12]
  norm_num [List.sum_cons]

end Fintech

namespace Fintech

/-- C4 counterexample: a request whose loan triple is fully present but with
interestRatePercent = 0 is approved WITHOUT any totalRepayable in the outcome
— the Python guard `if loan_amount and interest_rate and loan_term` treats
the value 0 as absent — even though the compound helper itself at rate 0
would return the principal. -/
theorem c4_counterexample :
    ((calculate_advance zeroRateLoanRequest "id-1" "t0" []).map
      (fun x => x.1.total_repayable)) = .ok none ∧
    calculate_compound_interest 10000 0 12 = 10000 := by
  constructor
  · rw [run_zero_rate]
    rfl
  · simp only [calculate_compound_interest]
    rw [show (10000 : ℚ) * (1 + 0 / 100 / 12) ^ (12 : ℕ) = 10000 by norm_num]
    exact round2_of_exact _ 1000000 (by norm_num)

/-- C4 corrected: the outcome carries totalRepayable (equal to the
compound-interest figure) only when the request reaches the approval branch
AND all three loan fields are present with nonzero — truthy — values; a zero
value in any of them (interestRatePercent = 0 included) skips the loan step,
leaving totalRepayable absent.  The underlying helper at rate 0 returns the
rounded principal (no growth) for every principal and term. -/
theorem c4_total_repayable_when_truthy (request : AdvanceRequest)
    (fresh_id now : String) (db : List (String × LoanRecord))
    (resp : AdvanceResponse) (db' : List (String × LoanRecord))
    (la ir : ℚ) (lt : ℕ) (ms : ℚ)
    (hla : request.loan_amount = some la) (hir : request.interest_rate = some ir)
    (hlt : request.loan_term = some lt)
    (hla0 : la ≠ 0) (hir0 : ir ≠ 0) (hlt0 : lt ≠ 0)
    (hms : convert_to_monthly_salary request.gross_salary request.pay_frequency = .ok ms)
    (hsal : ¬ ms < 1000) (hcap : ¬ ms * 0.5 < request.advance_amount)
    (h : calculate_advance request fresh_id now db = .ok (resp, db')) :
    resp.total_repayable = some (calculate_compound_interest la ir lt) ∧
    (∀ (p : ℚ) (t : ℕ), calculate_compound_interest p 0 t = round2 p) := by
  constructor
  · obtain ⟨ms', hms', hcase⟩ := calculate_advance_ok_cases request fresh_id now db resp db' h
    rw [hms] at hms'
    injection hms' with he
    subst he
    rcases hcase with ⟨hlt', _, _⟩ | ⟨_, hcap', _, _⟩ | ⟨_, _, total, sched, hlf, hresp, _⟩
    · exact absurd hlt' hsal
    · exact absurd hcap' hcap
    · subst hresp
      have := loanFigures_truthy_total request la ir lt hla hir hlt hla0 hir0 hlt0
        total sched hlf
      rw [← this]
      rfl
  · intro p t
    simp only [calculate_compound_interest]
    rw [show (p : ℚ) * (1 + 0 / 100 / 12) ^ t = p by norm_num]

/-- C4 witness: the loan sample (10000 / 5 % / 12) carries its compound total
in the approved outcome. -/
theorem c4_witness :
    (approved_response sampleLoanRequest 2000 50
        (some (calculate_compound_interest 10000 5 12)) none "id-2").total_repayable =
      some (calculate_compound_interest 10000 5 12) ∧
    (∀ (p : ℚ) (t : ℕ), calculate_compound_interest p 0 t = round2 p) :=
  c4_total_repayable_when_truthy sampleLoanRequest "id-2" "t0" []
    (approved_response sampleLoanRequest 2000 50
      (some (calculate_compound_interest 10000 5 12)) none "id-2")
    [("id-2", mk_loan_record sampleLoanRequest "id-2" "t0" 50
      (some (calculate_compound_interest 10000 5 12)) none)]
    10000 5 12 4000 rfl rfl rfl (by norm_num) (by norm_num) (by norm_num)
    (convert_monthly 4000) (by norm_num) (by norm_num [sampleLoanRequest]) run_loan

/-- C5 counterexample: gross 500 Monthly (monthly salary 500) is ineligible;
the outcome's maxAdvance is 0, while the claimed invariant
`max(0, monthlySalary * 0.5)` evaluates to 250 ≠ 0. -/
theorem c5_counterexample :
    ((calculate_advance ineligibleRequest "id-1" "t0" []).map
      (fun x => x.1.max_advance)) = .ok 0 ∧
    convert_to_monthly_salary ineligibleRequest.gross_salary
      ineligibleRequest.pay_frequency = .ok 500 ∧
    max 0 ((500 : ℚ) * 0.5) = 250 ∧ (0 : ℚ) ≠ 250 := by
  refine ⟨?_, convert_monthly 500, by norm_num [max_def], by norm_num⟩
  rw [run_ineligible]
  rfl

/-- C5 corrected: the outcome's maxAdvance is `monthlySalary * 0.5` on the
eligible branches (where it agrees with `max(0, monthlySalary * 0.5)` since
the salary is at least 1000), but on the ineligible branch the source returns
the constant 0, not `max(0, monthlySalary * 0.5)`. -/
theorem c5_max_advance_by_branch (request : AdvanceRequest)
    (fresh_id now : String) (db : List (String × LoanRecord))
    (resp : AdvanceResponse) (db' : List (String × LoanRecord)) (ms : ℚ)
    (hms : convert_to_monthly_salary request.gross_salary request.pay_frequency = .ok ms)
    (h : calculate_advance request fresh_id now db = .ok (resp, db')) :
    resp.max_advance = if ms < 1000 then 0 else ms * 0.5 := by
  obtain ⟨ms', hms', hcase⟩ := calculate_advance_ok_cases request fresh_id now db resp db' h
  rw [hms] at hms'
  injection hms' with he
  subst he
  rcases hcase with ⟨hlt, hresp, _⟩ | ⟨hge, _, hresp, _⟩ | ⟨hge, _, _, _, _, hresp, _⟩
  · rw [hresp, if_pos hlt]
    rfl
  · rw [hresp, if_neg hge]
    rfl
  · rw [hresp, if_neg hge]
    rfl

/-- C5 witness: the approved sample (monthly salary 4000) has
maxAdvance = 4000 * 0.5. -/
theorem c5_witness :
    (approved_response sampleApprovedRequest 2000 50 none none "id-1").max_advance =
      if (4000 : ℚ) < 1000 then 0 else 4000 * 0.5 :=
  c5_max_advance_by_branch sampleApprovedRequest "id-1" "t0" []
    (approved_response sampleApprovedRequest 2000 50 none none "id-1")
    [("id-1", mk_loan_record sampleApprovedRequest "id-1" "t0" 50 none none)]
    4000 (convert_monthly 4000) run_approved

/-- C6 counterexample: an eligible request with advanceAmount = 0 is approved
at amount 0, yet its fee is 10 (the clamp's lower bound), not 0 — so fee is
NOT zero whenever approvedAmount is zero. -/
theorem c6_counterexample :
    ((calculate_advance zeroAdvanceRequest "id-1" "t0" []).map
      (fun x => (x.1.approved_amount, x.1.fee))) = .ok (0, 10) ∧
    (10 : ℚ) ≠ 0 := by
  refine ⟨?_, by norm_num⟩
  rw [run_zero_advance]
  rfl

/-- C6 corrected: fee = 0 exactly on the non-approval branches (where
approvedAmount is forced to 0); on the approval branch the fee is the
clamp `max(10, min(50, advance * 0.05))`, which is at least 10 even when the
approved amount — exactly the requested advance — is 0. -/
theorem c6_fee_characterization (request : AdvanceRequest)
    (fresh_id now : String) (db : List (String × LoanRecord))
    (resp : AdvanceResponse) (db' : List (String × LoanRecord))
    (h : calculate_advance request fresh_id now db = .ok (resp, db')) :
    (resp.approved_amount = 0 ∧ resp.fee = 0) ∨
    (resp.approved_amount = request.advance_amount ∧
     resp.fee = max 10.0 (min 50.0 (request.advance_amount * 0.05)) ∧
     (10 : ℚ) ≤ resp.fee) := by
  obtain ⟨ms, _, hcase⟩ := calculate_advance_ok_cases request fresh_id now db resp db' h
  rcases hcase with ⟨_, hresp, _⟩ | ⟨_, _, hresp, _⟩ | ⟨_, _, _, _, _, hresp, _⟩
  · subst hresp
    exact Or.inl ⟨rfl, rfl⟩
  · subst hresp
    exact Or.inl ⟨rfl, rfl⟩
  · subst hresp
    refine Or.inr ⟨rfl, rfl, ?_⟩
    exact le_trans (by norm_num : (10 : ℚ) ≤ 10.0)
      (le_max_left 10.0 (min 50.0 (request.advance_amount * 0.05)))

/-- C6 witness: the zero-advance sample lands in the approval disjunct with
fee 10 at approved amount 0. -/
theorem c6_witness :
    ((approved_response zeroAdvanceRequest 2000 10 none none "id-1").approved_amount = 0 ∧
     (approved_response zeroAdvanceRequest 2000 10 none none "id-1").fee = 0) ∨
    ((approved_response zeroAdvanceRequest 2000 10 none none "id-1").approved_amount =
       zeroAdvanceRequest.advance_amount ∧
     (approved_response zeroAdvanceRequest 2000 10 none none "id-1").fee =
       max 10.0 (min 50.0 (zeroAdvanceRequest.advance_amount * 0.05)) ∧
     (10 : ℚ) ≤ (approved_response zeroAdvanceRequest 2000 10 none none "id-1").fee) :=
  c6_fee_characterization zeroAdvanceRequest "id-1" "t0" []
    (approved_response zeroAdvanceRequest 2000 10 none none "id-1")
    [("id-1", mk_loan_record zeroAdvanceRequest "id-1" "t0" 10 none none)]
    run_zero_advance

/-- C7, confirmed: for a request whose normalized monthly salary is at least
1000 and whose requested advance lies between 0 and half that salary, the
outcome is eligible, approves exactly the requested amount, and charges
fee = max(10, min(50, advance * 0.05)), which always lies in [10, 50]. -/
theorem c7_approval_fee (request : AdvanceRequest)
    (fresh_id now : String) (db : List (String × LoanRecord))
    (resp : AdvanceResponse) (db' : List (String × LoanRecord)) (ms : ℚ)
    (hms : convert_to_monthly_salary request.gross_salary request.pay_frequency = .ok ms)
    (hsal : 1000 ≤ ms) (hadv : 0 ≤ request.advance_amount)
    (hcap : request.advance_amount ≤ ms * 0.5)
    (h : calculate_advance request fresh_id now db = .ok (resp, db')) :
    resp.eligible = true ∧ resp.approved_amount = request.advance_amount ∧
    resp.fee = max 10.0 (min 50.0 (request.advance_amount * 0.05)) ∧
    (10 : ℚ) ≤ resp.fee ∧ resp.fee ≤ 50 := by
  obtain ⟨ms', hms', hcase⟩ := calculate_advance_ok_cases request fresh_id now db resp db' h
  rw [hms] at hms'
  injection hms' with he
  subst he
  rcases hcase with ⟨hlt, _, _⟩ | ⟨_, hcap', _, _⟩ | ⟨_, _, total, sched, _, hresp, _⟩
  · exact absurd hlt (not_lt.mpr hsal)
  · exact absurd hcap' (not_lt.mpr hcap)
  · subst hresp
    refine ⟨rfl, rfl, rfl, ?_, ?_⟩
    · exact le_trans (by norm_num : (10 : ℚ) ≤ 10.0)
        (le_max_left 10.0 (min 50.0 (request.advance_amount * 0.05)))
    · exact le_trans
        (max_le (by norm_num : (10.0 : ℚ) ≤ 50.0)
          (min_le_left 50.0 (request.advance_amount * 0.05)))
        (by norm_num : (50.0 : ℚ) ≤ 50)

/-- C7 witness: gross 4000 Monthly with advance 1500 — approved with fee
max(10, min(50, 75)) = 50. -/
theorem c7_witness :
    (approved_response sampleApprovedRequest 2000 50 none none "id-1").eligible = true ∧
    (approved_response sampleApprovedRequest 2000 50 none none "id-1").approved_amount =
      sampleApprovedRequest.advance_amount ∧
    (approved_response sampleApprovedRequest 2000 50 none none "id-1").fee =
      max 10.0 (min 50.0 (sampleApprovedRequest.advance_amount * 0.05)) ∧
    (10 : ℚ) ≤ (approved_response sampleApprovedRequest 2000 50 none none "id-1").fee ∧
    (approved_response sampleApprovedRequest 2000 50 none none "id-1").fee ≤ 50 :=
  c7_approval_fee sampleApprovedRequest "id-1" "t0" []
    (approved_response sampleApprovedRequest 2000 50 none none "id-1")
    [("id-1", mk_loan_record sampleApprovedRequest "id-1" "t0" 50 none none)]
    4000 (convert_monthly 4000) (by norm_num) (by norm_num [sampleApprovedRequest])
    (by norm_num [sampleApprovedRequest]) run_approved

end Fintech
